import Mathlib

/-!
Verification of the "Probe CLI" test fixture
(`injector-integration-tests/runtimes/python/app.py`).

The program is embedded shallowly:

* the process environment is a mapping `String → Option String`
  (`os.environ.get` returns `none` when the variable is unset);
* the process-global marker `builtins.otel_injector_python_no_op_agent_has_been_loaded`
  is an `Option PyObj`: `none` when the attribute is absent (in which case the
  attribute access raises `AttributeError`), `some v` when it is set to some
  Python object `v`, of which only its truthiness (`bool(v)`) and its string
  form (`str(v)`, as interpolated by an f-string) are relevant;
* an invocation's observable outcome is a `RunResult`: a successful run with
  its standard-output text (exit code 0), a `sys.exit(1)` failure with its
  standard-error text, or an uncaught exception (exit code 1, no stdout,
  a traceback naming the exception on stderr).
-/

namespace App

/-- A Python object as far as this program can observe it: its truthiness
(`bool(v)`) and its `str(v)` rendering used by f-string interpolation. -/
structure PyObj where
  truthy : Bool
  str : String
deriving DecidableEq, Repr

/-- `str(v)` for an `Optional[str]` value, as an f-string would render it
(`None` prints as the string `None`). -/
def pyStr : Option String → String
  | none => "None"
  | some s => s

/-- Embeds `echo_env_var` from `app.py`: look the variable up with
`os.environ.get`; a falsy result (`None` or the empty string) prints a dash,
anything else prints the value itself. -/
def echo_env_var (env : String → Option String) (env_var_name : String) : String :=
  let env_var_value := env env_var_name
  if env_var_value = none ∨ env_var_value = some "" then
    env_var_name ++ ": -"
  else
    env_var_name ++ ": " ++ pyStr env_var_value

/-- Embeds `echo_builtin_property` from `app.py`: reading the builtins
attribute raises `AttributeError` when the marker was never set; otherwise a
falsy marker prints a dash and a truthy one prints `str(value)`. -/
def echo_builtin_property (marker : Option PyObj) : Except String String :=
  match marker with
  | none => Except.error "AttributeError"
  | some value =>
    if value.truthy then
      Except.ok ("otel_injector_python_no_op_agent_has_been_loaded: " ++ value.str)
    else
      Except.ok "otel_injector_python_no_op_agent_has_been_loaded: -"

/-- Observable outcome of one invocation of the program. -/
inductive RunResult where
  | success (stdout : String)
  | failure (stderr : String)
  | uncaught (exc : String)
deriving DecidableEq, Repr

/-- Standard output produced by an outcome (a failing or crashing run prints
nothing to stdout). -/
def RunResult.stdout : RunResult → String
  | .success s => s
  | .failure _ => ""
  | .uncaught _ => ""

/-- Standard-error text of an outcome.  For an uncaught exception this is the
exception name (the actual interpreter prints a traceback containing it). -/
def RunResult.stderrText : RunResult → String
  | .success _ => ""
  | .failure e => e
  | .uncaught e => e

/-- Process exit code of an outcome: `sys.exit(1)` and an uncaught exception
both terminate the interpreter with status 1. -/
def RunResult.exitCode : RunResult → Nat
  | .success _ => 0
  | .failure _ => 1
  | .uncaught _ => 1

/-- Embeds `main` from `app.py`.  `argv` is the full `sys.argv`, program name
included; `env` is the process environment; `marker` the builtins attribute. -/
def main (argv : List String) (env : String → Option String)
    (marker : Option PyObj) : RunResult :=
  match argv with
  | _ :: command :: rest =>
    if command = "pythonpath" then
      RunResult.success (echo_env_var env "PYTHONPATH")
    else if command = "verify-auto-instrumentation-agent-has-been-injected" then
      match echo_builtin_property marker with
      | Except.ok out => RunResult.success out
      | Except.error e => RunResult.uncaught e
    else if command = "otel-resource-attributes" then
      RunResult.success (echo_env_var env "OTEL_RESOURCE_ATTRIBUTES")
    else if command = "custom-env-var" then
      match rest with
      | [] =>
        RunResult.failure "error: custom-env-var command requires an additional argument\n"
      | name :: _ => RunResult.success (echo_env_var env name)
    else
      RunResult.failure ("unknown test app command: " ++ command ++ "\n")
  | _ =>
    RunResult.failure "error: not enough arguments, the command for the app under test needs to be specifed\n"

/-- Modelled from the spec's wording: the printed value, a dash exactly when
the looked-up value is missing or the empty string, the exact value
otherwise. -/
def printedValue : Option String → String
  | none => "-"
  | some s => if s = "" then "-" else s

/-- Modelled from the spec's wording: the output line `<label>: <value>`. -/
def lineFor (label : String) (v : Option String) : String :=
  label ++ (": " ++ printedValue v)

theorem echo_env_var_spec (env : String → Option String) (n : String) :
    echo_env_var env n = lineFor n (env n) := by
  unfold echo_env_var lineFor printedValue pyStr
  rcases h : env n with _ | s
  · simp
  · by_cases hs : s = ""
    · simp [hs]
    · rw [if_neg (by simp [hs])]
      show n ++ ": " ++ s = n ++ (": " ++ if s = "" then "-" else s)
      rw [if_neg hs]
      exact String.append_assoc n ": " s

/-- Claim C1: each environment-variable-echoing command (`pythonpath` with
label `PYTHONPATH`, `otel-resource-attributes` with label
`OTEL_RESOURCE_ATTRIBUTES`, `custom-env-var <name>` with label `<name>`)
succeeds and writes `<label>: -` when the named variable is unset or set to
the empty string, and `<label>: <exact value>` otherwise, for every process
environment. -/
theorem c1_env_echo_commands (prog : String) (env : String → Option String)
    (marker : Option PyObj) (rest : List String) (name : String) :
    main (prog :: "pythonpath" :: rest) env marker =
      RunResult.success (lineFor "PYTHONPATH" (env "PYTHONPATH")) ∧
    main (prog :: "otel-resource-attributes" :: rest) env marker =
      RunResult.success (lineFor "OTEL_RESOURCE_ATTRIBUTES" (env "OTEL_RESOURCE_ATTRIBUTES")) ∧
    main (prog :: "custom-env-var" :: name :: rest) env marker =
      RunResult.success (lineFor name (env name)) := by
  refine ⟨?_, ?_, ?_⟩
  · show RunResult.success (echo_env_var env "PYTHONPATH") = _
    exact congrArg RunResult.success (echo_env_var_spec env "PYTHONPATH")
  · show RunResult.success (echo_env_var env "OTEL_RESOURCE_ATTRIBUTES") = _
    exact congrArg RunResult.success (echo_env_var_spec env "OTEL_RESOURCE_ATTRIBUTES")
  · show RunResult.success (echo_env_var env name) = _
    exact congrArg RunResult.success (echo_env_var_spec env name)

/-- Claim C2, counterexample: with the marker attribute absent, the
`verify-auto-instrumentation-agent-has-been-injected` command does not
succeed with `otel_injector_python_no_op_agent_has_been_loaded: -` as the
claim states; the attribute read raises `AttributeError`, the run exits with
status 1, and nothing is written to standard output. -/
theorem c2_counterexample_absent_marker :
    main ["app.py", "verify-auto-instrumentation-agent-has-been-injected"]
        (fun _ => none) none = RunResult.uncaught "AttributeError" ∧
    main ["app.py", "verify-auto-instrumentation-agent-has-been-injected"]
        (fun _ => none) none ≠
      RunResult.success "otel_injector_python_no_op_agent_has_been_loaded: -" ∧
    (main ["app.py", "verify-auto-instrumentation-agent-has-been-injected"]
        (fun _ => none) none).exitCode = 1 := by
  refine ⟨rfl, by decide, rfl⟩

/-- Claim C2, amended: when the marker attribute is present and falsy the
command writes `otel_injector_python_no_op_agent_has_been_loaded: -` and
succeeds; when present and truthy it writes
`otel_injector_python_no_op_agent_has_been_loaded: <value>` and succeeds;
when the attribute is absent the read raises `AttributeError` and the
program fails with exit status 1. -/
theorem c2_marker_present_or_absent (prog : String)
    (env : String → Option String) (rest : List String) (v : PyObj) :
    main (prog :: "verify-auto-instrumentation-agent-has-been-injected" :: rest) env (some v) =
      RunResult.success
        (if v.truthy then "otel_injector_python_no_op_agent_has_been_loaded: " ++ v.str
         else "otel_injector_python_no_op_agent_has_been_loaded: -") ∧
    main (prog :: "verify-auto-instrumentation-agent-has-been-injected" :: rest) env none =
      RunResult.uncaught "AttributeError" ∧
    (main (prog :: "verify-auto-instrumentation-agent-has-been-injected" :: rest) env none).exitCode = 1 := by
  refine ⟨?_, rfl, rfl⟩
  obtain ⟨t, s⟩ := v
  cases t <;> rfl

/-- Claim C3: any first argument other than the four recognized subcommands
makes the program write `unknown test app command: <command>` (followed by a
newline) to standard error — in particular that text occurs in the
standard-error output — exit with status 1, and write nothing to standard
output. -/
theorem c3_unknown_command (prog command : String) (rest : List String)
    (env : String → Option String) (marker : Option PyObj)
    (h1 : command ≠ "pythonpath")
    (h2 : command ≠ "verify-auto-instrumentation-agent-has-been-injected")
    (h3 : command ≠ "otel-resource-attributes")
    (h4 : command ≠ "custom-env-var") :
    main (prog :: command :: rest) env marker =
      RunResult.failure ("unknown test app command: " ++ command ++ "\n") ∧
    ("unknown test app command: " ++ command).data <:+:
      (main (prog :: command :: rest) env marker).stderrText.data ∧
    (main (prog :: command :: rest) env marker).exitCode = 1 ∧
    (main (prog :: command :: rest) env marker).stdout = "" := by
  have hm : main (prog :: command :: rest) env marker =
      RunResult.failure ("unknown test app command: " ++ command ++ "\n") := by
    simp [main, h1, h2, h3, h4]
  refine ⟨hm, ?_, ?_, ?_⟩
  · rw [hm]
    refine ⟨[], "\n".data, ?_⟩
    simp [RunResult.stderrText]
  · rw [hm]
    rfl
  · rw [hm]
    rfl

/-- Witness for C3 at the spec's own scenario, the command `bogus-command`. -/
theorem c3_unknown_command_witness :
    main ["app.py", "bogus-command"] (fun _ => none) none =
      RunResult.failure ("unknown test app command: " ++ "bogus-command" ++ "\n") ∧
    ("unknown test app command: " ++ "bogus-command").data <:+:
      (main ["app.py", "bogus-command"] (fun _ => none) none).stderrText.data ∧
    (main ["app.py", "bogus-command"] (fun _ => none) none).exitCode = 1 ∧
    (main ["app.py", "bogus-command"] (fun _ => none) none).stdout = "" :=
  c3_unknown_command "app.py" "bogus-command" [] (fun _ => none) none
    (by decide) (by decide) (by decide) (by decide)

/-- Claim C4: invoked with only the program name and no subcommand, the
program writes the usage error to standard error, exits with status 1 (a
failure status), and writes nothing to standard output. -/
theorem c4_no_subcommand (prog : String) (env : String → Option String)
    (marker : Option PyObj) :
    main [prog] env marker =
      RunResult.failure "error: not enough arguments, the command for the app under test needs to be specifed\n" ∧
    (main [prog] env marker).exitCode = 1 ∧
    (main [prog] env marker).stdout = "" :=
  ⟨rfl, rfl, rfl⟩

/-- Claim C5: `custom-env-var` without its required second argument makes the
program write its specific missing-argument error to standard error, exit
with status 1, and write nothing to standard output. -/
theorem c5_custom_env_var_missing_name (prog : String)
    (env : String → Option String) (marker : Option PyObj) :
    main [prog, "custom-env-var"] env marker =
      RunResult.failure "error: custom-env-var command requires an additional argument\n" ∧
    (main [prog, "custom-env-var"] env marker).exitCode = 1 ∧
    (main [prog, "custom-env-var"] env marker).stdout = "" :=
  ⟨rfl, rfl, rfl⟩

theorem line_count_nl (label pv : String) (hl : label.data.count '\n' = 0)
    (hp : pv.data.count '\n' = 0) :
    (label ++ (": " ++ pv)).data.count '\n' = 0 := by
  have hsep : (": ").data.count '\n' = 0 := by decide
  simp [String.data_append, List.count_append, hl, hp, hsep]

theorem echo_env_var_shape (env : String → Option String) (n : String) :
    echo_env_var env n = n ++ (": " ++ printedValue (env n)) ∧
    (n.data.count '\n' = 0 → (printedValue (env n)).data.count '\n' = 0 →
      (echo_env_var env n).data.count '\n' = 0) := by
  refine ⟨echo_env_var_spec env n, ?_⟩
  intro hl hp
  rw [echo_env_var_spec env n]
  exact line_count_nl n _ hl hp

/-- Claim C6, counterexample: an environment value may itself end in a
newline, in which case the single stdout write does end with a trailing
newline character; with `PYTHONPATH` set to `x\n`, the `pythonpath` command
succeeds and its standard output's last character is a newline. -/
theorem c6_counterexample_newline :
    main ["app.py", "pythonpath"] (fun _ => some "x\n") none =
      RunResult.success "PYTHONPATH: x\n" ∧
    ("PYTHONPATH: x\n").data.getLast? = some '\n' :=
  ⟨rfl, by decide⟩

/-- Claim C6, amended: on every successful invocation the program writes to
standard output exactly the string `<label>: <value>` with nothing appended
by the program (in particular no newline of its own), where `<value>` is the
spec's printed value of the looked-up environment variable (a dash exactly
when missing or empty) or, for the marker command, `str` of the present
marker when truthy and a dash when falsy; the output contains no newline —
hence is a single line with no trailing newline — whenever the label and the
printed value are newline-free. -/
theorem c6_success_output_shape (argv : List String)
    (env : String → Option String) (marker : Option PyObj) (out : String)
    (h : main argv env marker = RunResult.success out) :
    ∃ label pv, out = label ++ (": " ++ pv) ∧
      (pv = printedValue (env label) ∨
        (label = "otel_injector_python_no_op_agent_has_been_loaded" ∧
          ∃ v, marker = some v ∧ pv = if v.truthy then v.str else "-")) ∧
      (label.data.count '\n' = 0 → pv.data.count '\n' = 0 →
        out.data.count '\n' = 0) := by
  rcases argv with _ | ⟨p, _ | ⟨c, rest⟩⟩
  · exact RunResult.noConfusion
      (show RunResult.failure _ = RunResult.success out from h)
  · exact RunResult.noConfusion
      (show RunResult.failure _ = RunResult.success out from h)
  · by_cases hc1 : c = "pythonpath"
    · subst hc1
      replace h : RunResult.success (echo_env_var env "PYTHONPATH") =
          RunResult.success out := h
      injection h with h
      subst h
      exact ⟨"PYTHONPATH", printedValue (env "PYTHONPATH"),
        (echo_env_var_shape env "PYTHONPATH").1, Or.inl rfl,
        (echo_env_var_shape env "PYTHONPATH").2⟩
    · by_cases hc2 : c = "verify-auto-instrumentation-agent-has-been-injected"
      · subst hc2
        rcases marker with _ | v
        · exact RunResult.noConfusion
            (show RunResult.uncaught "AttributeError" = RunResult.success out from h)
        · obtain ⟨t, s⟩ := v
          cases t
          · replace h : RunResult.success
                ("otel_injector_python_no_op_agent_has_been_loaded: -") =
                RunResult.success out := h
            injection h with h
            subst h
            refine ⟨"otel_injector_python_no_op_agent_has_been_loaded", "-", rfl,
              Or.inr ⟨rfl, ⟨PyObj.mk false s, rfl, rfl⟩⟩, ?_⟩
            intro _ _
            decide
          · replace h : RunResult.success
                ("otel_injector_python_no_op_agent_has_been_loaded: " ++ s) =
                RunResult.success out := h
            injection h with h
            subst h
            refine ⟨"otel_injector_python_no_op_agent_has_been_loaded", s,
              String.append_assoc "otel_injector_python_no_op_agent_has_been_loaded" ": " s,
              Or.inr ⟨rfl, ⟨PyObj.mk true s, rfl, rfl⟩⟩, ?_⟩
            intro hl hp
            rw [show ("otel_injector_python_no_op_agent_has_been_loaded: " ++ s : String) =
              "otel_injector_python_no_op_agent_has_been_loaded" ++ (": " ++ s) from
              String.append_assoc "otel_injector_python_no_op_agent_has_been_loaded" ": " s]
            exact line_count_nl _ s hl hp
      · by_cases hc3 : c = "otel-resource-attributes"
        · subst hc3
          replace h : RunResult.success (echo_env_var env "OTEL_RESOURCE_ATTRIBUTES") =
              RunResult.success out := h
          injection h with h
          subst h
          exact ⟨"OTEL_RESOURCE_ATTRIBUTES", printedValue (env "OTEL_RESOURCE_ATTRIBUTES"),
            (echo_env_var_shape env "OTEL_RESOURCE_ATTRIBUTES").1, Or.inl rfl,
            (echo_env_var_shape env "OTEL_RESOURCE_ATTRIBUTES").2⟩
        · by_cases hc4 : c = "custom-env-var"
          · subst hc4
            rcases rest with _ | ⟨name, rest⟩
            · exact RunResult.noConfusion
                (show RunResult.failure _ = RunResult.success out from h)
            · replace h : RunResult.success (echo_env_var env name) =
                  RunResult.success out := h
              injection h with h
              subst h
              exact ⟨name, printedValue (env name),
                (echo_env_var_shape env name).1, Or.inl rfl,
                (echo_env_var_shape env name).2⟩
          · simp [main, hc1, hc2, hc3, hc4] at h

/-- Witness for C6 at the spec's scenario `PYTHONPATH=/opt/otel`. -/
theorem c6_success_output_shape_witness :
    ∃ label pv, "PYTHONPATH: /opt/otel" = label ++ (": " ++ pv) ∧
      (pv = printedValue ((fun _ => some "/opt/otel") label) ∨
        (label = "otel_injector_python_no_op_agent_has_been_loaded" ∧
          ∃ v, (none : Option PyObj) = some v ∧ pv = if v.truthy then v.str else "-")) ∧
      (label.data.count '\n' = 0 → pv.data.count '\n' = 0 →
        ("PYTHONPATH: /opt/otel").data.count '\n' = 0) :=
  c6_success_output_shape ["app.py", "pythonpath"] (fun _ => some "/opt/otel")
    none "PYTHONPATH: /opt/otel" rfl

/-- An argument list names a recognized subcommand with all its required
arguments: one of the three no-argument subcommands, or `custom-env-var`
followed by a variable name. -/
def recognizedWithArgs : List String → Bool
  | _ :: command :: rest =>
    if command = "pythonpath" then true
    else if command = "verify-auto-instrumentation-agent-has-been-injected" then true
    else if command = "otel-resource-attributes" then true
    else if command = "custom-env-var" then !rest.isEmpty
    else false
  | _ => false

/-- The builtins marker needed by the invocation is available: only the
`verify-auto-instrumentation-agent-has-been-injected` subcommand reads it. -/
def markerAvailable : List String → Option PyObj → Bool
  | _ :: command :: _, marker =>
    if command = "verify-auto-instrumentation-agent-has-been-injected" then
      marker.isSome
    else true
  | _, _ => true

/-- Claim C7, counterexample: `verify-auto-instrumentation-agent-has-been-injected`
is a recognized subcommand with all its required arguments, yet when the
builtins marker is absent the run exits with status 1, not 0. -/
theorem c7_counterexample_marker_absent :
    recognizedWithArgs
      ["app.py", "verify-auto-instrumentation-agent-has-been-injected"] = true ∧
    (main ["app.py", "verify-auto-instrumentation-agent-has-been-injected"]
      (fun _ => none) none).exitCode = 1 :=
  ⟨rfl, rfl⟩

/-- Claim C7, amended: the exit code is 0 exactly when the subcommand is
recognized with its required arguments and, for the marker-reading
subcommand, the builtins marker is present; every argument/usage error,
unknown command, and the absent-marker attribute error exits with 1. -/
theorem c7_exit_codes (argv : List String) (env : String → Option String)
    (marker : Option PyObj) :
    (main argv env marker).exitCode =
      if recognizedWithArgs argv && markerAvailable argv marker then 0 else 1 := by
  rcases argv with _ | ⟨p, _ | ⟨c, rest⟩⟩
  · rfl
  · rfl
  · by_cases hc1 : c = "pythonpath"
    · subst hc1; rfl
    · by_cases hc2 : c = "verify-auto-instrumentation-agent-has-been-injected"
      · subst hc2
        rcases marker with _ | v
        · rfl
        · obtain ⟨t, s⟩ := v
          cases t <;> rfl
      · by_cases hc3 : c = "otel-resource-attributes"
        · subst hc3; rfl
        · by_cases hc4 : c = "custom-env-var"
          · subst hc4
            rcases rest with _ | ⟨name, rest⟩ <;> rfl
          · simp [main, recognizedWithArgs, markerAvailable, hc1, hc2, hc3, hc4,
              RunResult.exitCode]

/-- Claim C9: trailing arguments beyond the subcommand (and, for
`custom-env-var`, beyond the variable name) do not influence the outcome:
two invocations agreeing on program name, subcommand and required arguments
produce the same `RunResult`, hence identical stdout, stderr and exit
status. -/
theorem c9_trailing_args_ignored (prog command : String)
    (env : String → Option String) (marker : Option PyObj)
    (rest1 rest2 : List String)
    (h : command ≠ "custom-env-var" ∨
      ∃ name t1 t2, rest1 = name :: t1 ∧ rest2 = name :: t2) :
    main (prog :: command :: rest1) env marker =
      main (prog :: command :: rest2) env marker := by
  by_cases hc1 : command = "pythonpath"
  · subst hc1; rfl
  · by_cases hc2 : command = "verify-auto-instrumentation-agent-has-been-injected"
    · subst hc2; rfl
    · by_cases hc3 : command = "otel-resource-attributes"
      · subst hc3; rfl
      · by_cases hc4 : command = "custom-env-var"
        · subst hc4
          rcases h with h | ⟨name, t1, t2, h1, h2⟩
          · exact absurd rfl h
          · subst h1
            subst h2
            rfl
        · simp [main, hc1, hc2, hc3, hc4]

/-- Witness for C9: `pythonpath` with and without an extra trailing
argument. -/
theorem c9_trailing_args_ignored_witness :
    main ["app.py", "pythonpath"] (fun _ => none) none =
      main ["app.py", "pythonpath", "extra"] (fun _ => none) none :=
  c9_trailing_args_ignored "app.py" "pythonpath" (fun _ => none) none
    [] ["extra"] (Or.inl (by decide))

/-- Claim C10: an empty string as the first argument is an unrecognized
subcommand, not a missing one: the program reports
`unknown test app command: ` with the empty command name, exits with status
1, and does not emit the missing-subcommand usage error. -/
theorem c10_empty_command_is_unknown (prog : String)
    (env : String → Option String) (marker : Option PyObj) (rest : List String) :
    main (prog :: "" :: rest) env marker =
      RunResult.failure ("unknown test app command: " ++ "" ++ "\n") ∧
    (main (prog :: "" :: rest) env marker).exitCode = 1 ∧
    (main (prog :: "" :: rest) env marker).stderrText ≠
      "error: not enough arguments, the command for the app under test needs to be specifed\n" := by
  refine ⟨rfl, rfl, ?_⟩
  show ("unknown test app command: " ++ "" ++ "\n" : String) ≠ _
  decide

/-- The mutable process-level state visible to the program: the environment
mapping and the builtins marker attribute. -/
structure ProcState where
  env : String → Option String
  marker : Option PyObj

/-- `os.environ.get(n)`: reads the environment, threading the state. -/
def osEnvironGet (n : String) (st : ProcState) : Option String × ProcState :=
  (st.env n, st)

/-- Read of `builtins.otel_injector_python_no_op_agent_has_been_loaded`,
threading the state. -/
def builtinsMarkerGet (st : ProcState) : Option PyObj × ProcState :=
  (st.marker, st)

/-- State-threading version of `echo_env_var`, translated statement by
statement from `app.py`. -/
def echo_env_varS (env_var_name : String) (st : ProcState) : String × ProcState :=
  let p := osEnvironGet env_var_name st
  let env_var_value := p.fst
  if env_var_value = none ∨ env_var_value = some "" then
    (env_var_name ++ ": -", p.snd)
  else
    (env_var_name ++ ": " ++ pyStr env_var_value, p.snd)

/-- State-threading version of `echo_builtin_property`. -/
def echo_builtin_propertyS (st : ProcState) : Except String String × ProcState :=
  let p := builtinsMarkerGet st
  match p.fst with
  | none => (Except.error "AttributeError", p.snd)
  | some value =>
    if value.truthy then
      (Except.ok ("otel_injector_python_no_op_agent_has_been_loaded: " ++ value.str), p.snd)
    else
      (Except.ok "otel_injector_python_no_op_agent_has_been_loaded: -", p.snd)

/-- State-threading version of `main`: the run's outcome together with the
process state left behind. -/
def mainS (argv : List String) (st : ProcState) : RunResult × ProcState :=
  match argv with
  | _ :: command :: rest =>
    if command = "pythonpath" then
      let p := echo_env_varS "PYTHONPATH" st
      (RunResult.success p.fst, p.snd)
    else if command = "verify-auto-instrumentation-agent-has-been-injected" then
      let p := echo_builtin_propertyS st
      match p.fst with
      | Except.ok out => (RunResult.success out, p.snd)
      | Except.error e => (RunResult.uncaught e, p.snd)
    else if command = "otel-resource-attributes" then
      let p := echo_env_varS "OTEL_RESOURCE_ATTRIBUTES" st
      (RunResult.success p.fst, p.snd)
    else if command = "custom-env-var" then
      match rest with
      | [] =>
        (RunResult.failure "error: custom-env-var command requires an additional argument\n", st)
      | name :: _ =>
        let p := echo_env_varS name st
        (RunResult.success p.fst, p.snd)
    else
      (RunResult.failure ("unknown test app command: " ++ command ++ "\n"), st)
  | _ =>
    (RunResult.failure "error: not enough arguments, the command for the app under test needs to be specifed\n", st)

theorem echo_env_varS_snd (n : String) (st : ProcState) :
    (echo_env_varS n st).snd = st := by
  unfold echo_env_varS osEnvironGet
  by_cases h : st.env n = none ∨ st.env n = some "" <;> simp [h]

theorem echo_builtin_propertyS_snd (st : ProcState) :
    (echo_builtin_propertyS st).snd = st := by
  unfold echo_builtin_propertyS builtinsMarkerGet
  rcases hm : st.marker with _ | v
  · simp [hm]
  · simp only [hm]
    split <;> rfl

theorem echo_env_varS_fst (n : String) (st : ProcState) :
    (echo_env_varS n st).fst = echo_env_var st.env n := by
  unfold echo_env_varS osEnvironGet echo_env_var
  by_cases h : st.env n = none ∨ st.env n = some "" <;> simp [h]

theorem echo_builtin_propertyS_fst (st : ProcState) :
    (echo_builtin_propertyS st).fst = echo_builtin_property st.marker := by
  unfold echo_builtin_propertyS builtinsMarkerGet echo_builtin_property
  rcases hm : st.marker with _ | v
  · simp [hm]
  · simp only [hm]
    split <;> rfl

theorem mainS_fst (argv : List String) (st : ProcState) :
    (mainS argv st).fst = main argv st.env st.marker := by
  rcases argv with _ | ⟨p, _ | ⟨c, rest⟩⟩
  · rfl
  · rfl
  · by_cases hc1 : c = "pythonpath"
    · subst hc1
      show RunResult.success (echo_env_varS "PYTHONPATH" st).fst = _
      rw [echo_env_varS_fst]
      rfl
    · by_cases hc2 : c = "verify-auto-instrumentation-agent-has-been-injected"
      · subst hc2
        show (match (echo_builtin_propertyS st).fst with
          | Except.ok out => (RunResult.success out, (echo_builtin_propertyS st).snd)
          | Except.error e => (RunResult.uncaught e, (echo_builtin_propertyS st).snd)).fst =
          (match echo_builtin_property st.marker with
          | Except.ok out => RunResult.success out
          | Except.error e => RunResult.uncaught e)
        rw [echo_builtin_propertyS_fst]
        rcases hq : echo_builtin_property st.marker with e | out <;> simp [hq]
      · by_cases hc3 : c = "otel-resource-attributes"
        · subst hc3
          show RunResult.success (echo_env_varS "OTEL_RESOURCE_ATTRIBUTES" st).fst = _
          rw [echo_env_varS_fst]
          rfl
        · by_cases hc4 : c = "custom-env-var"
          · subst hc4
            rcases rest with _ | ⟨name, rest⟩
            · rfl
            · show RunResult.success (echo_env_varS name st).fst = _
              rw [echo_env_varS_fst]
              rfl
          · simp [mainS, main, hc1, hc2, hc3, hc4]

/-- Claim C8: the program never modifies the process state — the environment
mapping and marker after the run equal those before — and it writes at most
one output stream: a successful run writes nothing to standard error, a
failing run writes nothing to standard output. -/
theorem c8_no_side_effects (argv : List String) (st : ProcState) :
    (mainS argv st).snd = st ∧
    ((mainS argv st).fst.stderrText = "" ∨ (mainS argv st).fst.stdout = "") := by
  constructor
  · rcases argv with _ | ⟨p, _ | ⟨c, rest⟩⟩
    · rfl
    · rfl
    · by_cases hc1 : c = "pythonpath"
      · subst hc1
        show (echo_env_varS "PYTHONPATH" st).snd = st
        exact echo_env_varS_snd _ st
      · by_cases hc2 : c = "verify-auto-instrumentation-agent-has-been-injected"
        · subst hc2
          show (match (echo_builtin_propertyS st).fst with
            | Except.ok out => (RunResult.success out, (echo_builtin_propertyS st).snd)
            | Except.error e => (RunResult.uncaught e, (echo_builtin_propertyS st).snd)).snd = st
          rcases hq : (echo_builtin_propertyS st).fst with e | out
          · simpa using echo_builtin_propertyS_snd st
          · simpa using echo_builtin_propertyS_snd st
        · by_cases hc3 : c = "otel-resource-attributes"
          · subst hc3
            show (echo_env_varS "OTEL_RESOURCE_ATTRIBUTES" st).snd = st
            exact echo_env_varS_snd _ st
          · by_cases hc4 : c = "custom-env-var"
            · subst hc4
              rcases rest with _ | ⟨name, rest⟩
              · rfl
              · show (echo_env_varS name st).snd = st
                exact echo_env_varS_snd name st
            · simp [mainS, hc1, hc2, hc3, hc4]
  · rw [mainS_fst]
    rcases hr : main argv st.env st.marker with s | e | e
    · exact Or.inl rfl
    · exact Or.inr rfl
    · exact Or.inr rfl

end App
